import Mathlib

/-!
Shallow embedding of `Code/Framework/AzCore/AzCore/Utils/ValidationUtils.h`:
the `AZ::IsValid` overload family. A C++ pointer value is embedded as an
`Option` (`none` standing for `nullptr`). Since C++ has overloading and Lean
does not, each overload gets a suffixed name (`IsValidPtr`, `IsValidEntity`,
...). The collaborator types the header probes (entity, component, asset,
job, ...) are declared outside the repository source file, so they are
modelled from the specification, each holding exactly the observable state
the header's predicates read.
-/

namespace AZ

/-- Modelled from the spec: the entity lifecycle enumeration
`Constructed → Init → Activating → Active → Deactivating → Destroyed`
(the collaborator `AZ::Entity::State`; only `Active` makes the entity
predicate true). -/
inductive EntityState where
  | Constructed
  | Init
  | Activating
  | Active
  | Deactivating
  | Destroyed
deriving DecidableEq, Repr

/-- Modelled from the spec: an entity exposes a state accessor yielding an
enumeration containing `Active`. -/
structure Entity where
  state : EntityState
deriving DecidableEq, Repr

/-- The collaborator accessor `AZ::Entity::GetState()`. -/
def Entity.GetState (e : Entity) : EntityState := e.state

/-- Modelled from the spec: a component exposes an owning-entity accessor
(which may yield a null pointer). -/
structure Component where
  entity : Option Entity
deriving DecidableEq, Repr

/-- The collaborator accessor `AZ::Component::GetEntity()`. -/
def Component.GetEntity (c : Component) : Option Entity := c.entity

/-- Modelled from the spec: an asset identifier has its own validity query. -/
structure AssetId where
  valid : Bool
deriving DecidableEq, Repr

/-- The collaborator query `AZ::Data::AssetId::IsValid()`. -/
def AssetId.IsValid (assetId : AssetId) : Bool := assetId.valid

/-- Modelled from the spec: an asset handle carries a readiness flag
(latched by the asset system) and an identifier. -/
structure Asset where
  ready : Bool
  assetId : AssetId
deriving DecidableEq, Repr

/-- The collaborator query `AZ::Data::Asset::IsReady()`. -/
def Asset.IsReady (a : Asset) : Bool := a.ready

/-- The collaborator accessor `AZ::Data::Asset::GetId()`. -/
def Asset.GetId (a : Asset) : AssetId := a.assetId

/-- Modelled from the spec: the empty (default-constructed) asset state is
not ready and its identifier reports invalid. -/
def emptyAsset : Asset := ⟨false, ⟨false⟩⟩

/-- Modelled from the spec: a shared owning handle stores a pointer (the one
probed by the null comparison) and a reference count that the predicate does
not read. -/
structure SharedPtr (T : Type) where
  get : Option T
  useCount : Nat

/-- Modelled from the spec: a unique owning handle stores a pointer. -/
structure UniquePtr (T : Type) where
  get : Option T

/-- Modelled from the spec: the intrusive render-hardware pointer wrapper
`AZ::RHI::Ptr` stores a pointer. -/
structure RHIPtr (T : Type) where
  get : Option T

/-- Modelled from the spec: the render-pipeline pointer wrapper
`AZ::RPI::Ptr` stores a pointer. -/
structure RPIPtr (T : Type) where
  get : Option T

/-- Modelled from the spec: the data-instance handle `AZ::Data::Instance`
stores a pointer. -/
structure Instance (T : Type) where
  get : Option T

/-- Opaque pointee for view handles. -/
structure View where
  tag : Nat
deriving DecidableEq, Repr

/-- Opaque pointee for scene handles. -/
structure Scene where
  tag : Nat
deriving DecidableEq, Repr

/-- Opaque pointee for render-pipeline handles. -/
structure RenderPipeline where
  tag : Nat
deriving DecidableEq, Repr

/-- Opaque pointee for shader-resource-group handles. -/
structure ShaderResourceGroup where
  tag : Nat
deriving DecidableEq, Repr

/-- Opaque pointee for pipeline-state handles. -/
structure PipelineState where
  tag : Nat
deriving DecidableEq, Repr

/-- Modelled from the spec: `AZ::RPI::ViewPtr` is a shared owning handle to a
view. -/
abbrev ViewPtr := SharedPtr View

/-- Modelled from the spec: `AZ::RPI::ScenePtr` is a shared owning handle to
a scene. -/
abbrev ScenePtr := SharedPtr Scene

/-- Modelled from the spec: `AZ::RPI::RenderPipelinePtr` is a shared owning
handle to a render pipeline. -/
abbrev RenderPipelinePtr := SharedPtr RenderPipeline

/-- Modelled from the spec: `AZ::RHI::ShaderResourceGroupPtr` is an intrusive
handle to a shader resource group. -/
abbrev ShaderResourceGroupPtr := RHIPtr ShaderResourceGroup

/-- Modelled from the spec: `AZ::RHI::PipelineStatePtr` is an intrusive
handle to a pipeline state. -/
abbrev PipelineStatePtr := RHIPtr PipelineState

/-- Modelled from the spec: a result/outcome value carries either a success
payload or a failure payload, with a discriminant distinguishing them. -/
inductive Outcome (T E : Type) where
  | success (value : T)
  | failure (err : E)

/-- The collaborator query `AZ::Outcome::IsSuccess()`: the success
discriminant. -/
def Outcome.IsSuccess {T E : Type} : Outcome T E → Bool
  | .success _ => true
  | .failure _ => false

/-- Modelled from the spec: a job handle exposes a cancellation query. -/
structure Job where
  cancelled : Bool
deriving DecidableEq, Repr

/-- The collaborator query `AZ::Job::IsCancelled()`. -/
def Job.IsCancelled (j : Job) : Bool := j.cancelled

/-- Modelled from the spec: a serialization-context handle exposes a
readiness query. -/
structure SerializeContext where
  ready : Bool
deriving DecidableEq, Repr

/-- The collaborator query `AZ::SerializeContext::IsReady()`. -/
def SerializeContext.IsReady (c : SerializeContext) : Bool := c.ready

/-- Source lines 28-32, `IsValid(const T*)`: `return object != nullptr;`. -/
def IsValidPtr {T : Type} (object : Option T) : Bool :=
  object.isSome

/-- Source lines 38-42, `IsValid(const AZStd::shared_ptr<T>&)`:
`return smartPtr != nullptr;` (the null comparison probes the stored
pointer only). -/
def IsValidSharedPtr {T : Type} (smartPtr : SharedPtr T) : Bool :=
  smartPtr.get.isSome

/-- Source lines 48-52, `IsValid(const AZStd::unique_ptr<T>&)`:
`return uniquePtr != nullptr;`. -/
def IsValidUniquePtr {T : Type} (uniquePtr : UniquePtr T) : Bool :=
  uniquePtr.get.isSome

/-- Source lines 58-62, `IsValid(const AZ::Entity*)`:
`return entity && entity->GetState() == AZ::Entity::State::Active;`.
The short-circuit `&&` becomes a match: `GetState` is only read on a
non-null pointer. -/
def IsValidEntity : Option Entity → Bool
  | none => false
  | some entity => entity.GetState == EntityState.Active

/-- Source lines 68-72, `IsValid(const AZ::Component*)`:
`return component && component->GetEntity() &&
component->GetEntity()->GetState() == AZ::Entity::State::Active;`.
`GetEntity` is read twice, as in the source; both reads of the unchanged
component return the same pure value, so the inner `none` branch is
unreachable. -/
def IsValidComponent : Option Component → Bool
  | none => false
  | some component =>
    match component.GetEntity with
    | none => false
    | some _ =>
      match component.GetEntity with
      | none => false
      | some owner => owner.GetState == EntityState.Active

/-- Source lines 78-82, `IsValid(const AZ::Data::Asset<T>&)`:
`return asset.IsReady() && asset.GetId().IsValid();`. -/
def IsValidAsset (asset : Asset) : Bool :=
  asset.IsReady && asset.GetId.IsValid

/-- Source lines 88-92, `IsValid(const AZ::RHI::Ptr<T>&)`:
`return ptr != nullptr;`. -/
def IsValidRHIPtr {T : Type} (ptr : RHIPtr T) : Bool :=
  ptr.get.isSome

/-- Source lines 98-102, `IsValid(const AZ::RPI::Ptr<T>&)`:
`return ptr != nullptr;`. -/
def IsValidRPIPtr {T : Type} (ptr : RPIPtr T) : Bool :=
  ptr.get.isSome

/-- Source lines 108-111, `IsValid(const AZ::RPI::ViewPtr&)`:
`return ptr != nullptr;`. -/
def IsValidViewPtr (ptr : ViewPtr) : Bool :=
  ptr.get.isSome

/-- Source lines 117-120, `IsValid(const AZ::RPI::ScenePtr&)`:
`return ptr != nullptr;`. -/
def IsValidScenePtr (ptr : ScenePtr) : Bool :=
  ptr.get.isSome

/-- Source lines 126-129, `IsValid(const AZ::RPI::RenderPipelinePtr&)`:
`return ptr != nullptr;`. -/
def IsValidRenderPipelinePtr (ptr : RenderPipelinePtr) : Bool :=
  ptr.get.isSome

/-- Source lines 135-138, `IsValid(const AZ::RHI::ShaderResourceGroupPtr&)`:
`return ptr != nullptr;`. -/
def IsValidShaderResourceGroupPtr (ptr : ShaderResourceGroupPtr) : Bool :=
  ptr.get.isSome

/-- Source lines 144-147, `IsValid(const AZ::RHI::PipelineStatePtr&)`:
`return ptr != nullptr;`. -/
def IsValidPipelineStatePtr (ptr : PipelineStatePtr) : Bool :=
  ptr.get.isSome

/-- Source lines 153-157, `IsValid(const AZ::Data::Instance<T>&)`:
`return instance != nullptr;`. -/
def IsValidInstance {T : Type} (inst : Instance T) : Bool :=
  inst.get.isSome

/-- Source lines 163-167, `IsValid(const AZ::Outcome<T, E>&)`:
`return outcome.IsSuccess();`. -/
def IsValidOutcome {T E : Type} (outcome : Outcome T E) : Bool :=
  outcome.IsSuccess

/-- Source lines 173-176, `IsValid(const AZ::Job*)`:
`return job && !job->IsCancelled();`. -/
def IsValidJob : Option Job → Bool
  | none => false
  | some job => !job.IsCancelled

/-- Source lines 192-195, `IsValid(const AZ::SerializeContext*)`:
`return context && context->IsReady();`. -/
def IsValidSerializeContext : Option SerializeContext → Bool
  | none => false
  | some context => context.IsReady

/-- The secondary accessors a composite overload may invoke on its argument,
used by the instrumented evaluators to record left-to-right short-circuit
evaluation of the source expressions. -/
inductive Probe where
  | entityGetState
  | componentGetEntity
  | ownerGetState
  | jobIsCancelled
  | contextIsReady
deriving DecidableEq, Repr

/-- Instrumented entity overload: the verdict of `IsValidEntity` together
with the list of secondary accessor calls the source expression performs,
in evaluation order. -/
def IsValidEntityEval : Option Entity → Bool × List Probe
  | none => (false, [])
  | some entity => (entity.GetState == EntityState.Active, [Probe.entityGetState])

/-- Instrumented component overload: the verdict of `IsValidComponent`
together with the list of secondary accessor calls, in evaluation order
(`GetEntity` appears once per read of the source expression). -/
def IsValidComponentEval : Option Component → Bool × List Probe
  | none => (false, [])
  | some component =>
    match component.GetEntity with
    | none => (false, [Probe.componentGetEntity])
    | some _ =>
      match component.GetEntity with
      | none => (false, [Probe.componentGetEntity, Probe.componentGetEntity])
      | some owner =>
        (owner.GetState == EntityState.Active,
          [Probe.componentGetEntity, Probe.componentGetEntity, Probe.ownerGetState])

/-- Instrumented job overload: verdict plus recorded accessor calls. -/
def IsValidJobEval : Option Job → Bool × List Probe
  | none => (false, [])
  | some job => (!job.IsCancelled, [Probe.jobIsCancelled])

/-- Instrumented serialization-context overload: verdict plus recorded
accessor calls. -/
def IsValidSerializeContextEval : Option SerializeContext → Bool × List Probe
  | none => (false, [])
  | some context => (context.IsReady, [Probe.contextIsReady])

/-- The single-read form of the component predicate stated by claim C10:
bind the owning entity once and apply the null test and the Active-state
test to that one observation. Written from the claim text, to be compared
with the double-read `IsValidComponent` taken from the source. -/
def IsValidComponentSingleRead : Option Component → Bool
  | none => false
  | some component =>
    match component.GetEntity with
    | none => false
    | some owner => owner.GetState == EntityState.Active

/-- C1: for every pointer `e` to an entity, `IsValidEntity e` returns true
iff `e` is non-null and the entity's reported state equals `Active`; for an
entity in any of the non-Active states (`Constructed`, `Init`, `Activating`,
`Deactivating`, `Destroyed`) it returns false. -/
theorem entity_isvalid_iff_active :
    (∀ e : Option Entity, IsValidEntity e = true ↔
        ∃ ent : Entity, e = some ent ∧ ent.GetState = EntityState.Active) ∧
    (∀ ent : Entity,
        ent.GetState = EntityState.Constructed ∨ ent.GetState = EntityState.Init ∨
        ent.GetState = EntityState.Activating ∨ ent.GetState = EntityState.Deactivating ∨
        ent.GetState = EntityState.Destroyed →
        IsValidEntity (some ent) = false) := by
  constructor
  · intro e
    cases e with
    | none => simp [IsValidEntity]
    | some ent =>
      simp only [IsValidEntity, beq_iff_eq]
      constructor
      · intro h
        exact ⟨ent, rfl, h⟩
      · rintro ⟨ent2, heq, hs⟩
        injection heq with heq
        subst heq
        exact hs
  · intro ent
    obtain ⟨s⟩ := ent
    cases s <;> decide

/-- Closed instance of C1: an entity observed in the `Deactivating` state is
reported invalid. -/
theorem entity_isvalid_iff_active_witness :
    IsValidEntity (some ⟨EntityState.Deactivating⟩) = false :=
  entity_isvalid_iff_active.2 ⟨EntityState.Deactivating⟩ (by decide)

/-- C2: for every non-null component pointer whose owning-entity accessor
returns null, the component overload returns false and never reads the
owner's state (no null dereference); whenever the owning entity is non-null,
the component overload agrees with the entity overload applied to that
owning-entity pointer. -/
theorem component_isvalid_owner :
    (∀ c : Component, c.GetEntity = none →
        IsValidComponent (some c) = false ∧
        Probe.ownerGetState ∉ (IsValidComponentEval (some c)).2) ∧
    (∀ (c : Component) (owner : Entity), c.GetEntity = some owner →
        IsValidComponent (some c) = IsValidEntity (some owner)) := by
  constructor
  · intro c h
    obtain ⟨oe⟩ := c
    simp only [Component.GetEntity] at h
    subst h
    exact ⟨rfl, by decide⟩
  · intro c owner h
    obtain ⟨oe⟩ := c
    simp only [Component.GetEntity] at h
    subst h
    rfl

/-- Closed instance of C2: an orphaned component is invalid, and a component
owned by an active entity gets the entity verdict. -/
theorem component_isvalid_owner_witness :
    IsValidComponent (some ⟨none⟩) = false ∧
    IsValidComponent (some ⟨some ⟨EntityState.Active⟩⟩) =
      IsValidEntity (some ⟨EntityState.Active⟩) :=
  ⟨(component_isvalid_owner.1 ⟨none⟩ rfl).1,
   component_isvalid_owner.2 ⟨some ⟨EntityState.Active⟩⟩ ⟨EntityState.Active⟩ rfl⟩

/-- C3: for every asset handle, the asset overload returns true iff the
readiness flag is set and the identifier reports valid; if either flag is
false the verdict is false. -/
theorem asset_isvalid_iff_ready_and_id :
    (∀ a : Asset, IsValidAsset a = true ↔
        a.IsReady = true ∧ a.GetId.IsValid = true) ∧
    (∀ a : Asset, a.IsReady = false ∨ a.GetId.IsValid = false →
        IsValidAsset a = false) := by
  constructor
  · intro a
    obtain ⟨r, ⟨v⟩⟩ := a
    simp [IsValidAsset, Asset.IsReady, Asset.GetId, AssetId.IsValid]
  · intro a h
    obtain ⟨r, ⟨v⟩⟩ := a
    rcases h with h | h <;>
      simp_all [IsValidAsset, Asset.IsReady, Asset.GetId, AssetId.IsValid]

/-- Closed instance of C3: a ready asset with an invalid identifier is
reported invalid. -/
theorem asset_isvalid_iff_ready_and_id_witness :
    IsValidAsset ⟨true, ⟨false⟩⟩ = false :=
  asset_isvalid_iff_ready_and_id.2 ⟨true, ⟨false⟩⟩ (Or.inr rfl)

/-- C4: for every job pointer, the job overload returns true iff the pointer
is non-null and the job's cancellation flag is false; a null job pointer
yields false and a non-null cancelled job yields false. -/
theorem job_isvalid_iff_not_cancelled :
    (∀ j : Option Job, IsValidJob j = true ↔
        ∃ job : Job, j = some job ∧ job.IsCancelled = false) ∧
    IsValidJob none = false ∧
    (∀ job : Job, job.IsCancelled = true → IsValidJob (some job) = false) := by
  refine ⟨?_, rfl, ?_⟩
  · intro j
    cases j with
    | none => simp [IsValidJob]
    | some job =>
      simp only [IsValidJob, Bool.not_eq_eq_eq_not, Bool.not_true]
      constructor
      · intro h
        exact ⟨job, rfl, h⟩
      · rintro ⟨job2, heq, hc⟩
        injection heq with heq
        subst heq
        exact hc
  · intro job h
    obtain ⟨c⟩ := job
    simp only [Job.IsCancelled] at h
    subst h
    rfl

/-- Closed instance of C4: a non-null cancelled job is reported invalid. -/
theorem job_isvalid_iff_not_cancelled_witness :
    IsValidJob (some ⟨true⟩) = false :=
  job_isvalid_iff_not_cancelled.2.2 ⟨true⟩ rfl

/-- C5: every supported handle category in its empty/null state (null raw
pointer, empty shared/unique/intrusive handle, empty asset, null job, null
entity/component/context pointer) is reported invalid. -/
theorem empty_handles_invalid :
    (∀ T : Type, IsValidPtr (none : Option T) = false) ∧
    (∀ (T : Type) (s : SharedPtr T), s.get = none → IsValidSharedPtr s = false) ∧
    (∀ (T : Type) (u : UniquePtr T), u.get = none → IsValidUniquePtr u = false) ∧
    (∀ (T : Type) (p : RHIPtr T), p.get = none → IsValidRHIPtr p = false) ∧
    (∀ (T : Type) (p : RPIPtr T), p.get = none → IsValidRPIPtr p = false) ∧
    (∀ p : ViewPtr, p.get = none → IsValidViewPtr p = false) ∧
    (∀ p : ScenePtr, p.get = none → IsValidScenePtr p = false) ∧
    (∀ p : RenderPipelinePtr, p.get = none → IsValidRenderPipelinePtr p = false) ∧
    (∀ p : ShaderResourceGroupPtr, p.get = none →
        IsValidShaderResourceGroupPtr p = false) ∧
    (∀ p : PipelineStatePtr, p.get = none → IsValidPipelineStatePtr p = false) ∧
    (∀ (T : Type) (i : Instance T), i.get = none → IsValidInstance i = false) ∧
    IsValidEntity none = false ∧
    IsValidComponent none = false ∧
    IsValidJob none = false ∧
    IsValidSerializeContext none = false ∧
    IsValidAsset emptyAsset = false := by
  refine ⟨fun T => rfl, ?_, ?_, ?_, ?_, ?_, ?_, ?_, ?_, ?_, ?_,
    rfl, rfl, rfl, rfl, rfl⟩
  · intro T s h
    simp [IsValidSharedPtr, h]
  · intro T u h
    simp [IsValidUniquePtr, h]
  · intro T p h
    simp [IsValidRHIPtr, h]
  · intro T p h
    simp [IsValidRPIPtr, h]
  · intro p h
    simp [IsValidViewPtr, h]
  · intro p h
    simp [IsValidScenePtr, h]
  · intro p h
    simp [IsValidRenderPipelinePtr, h]
  · intro p h
    simp [IsValidShaderResourceGroupPtr, h]
  · intro p h
    simp [IsValidPipelineStatePtr, h]
  · intro T i h
    simp [IsValidInstance, h]

/-- Closed instance of C5: an empty shared handle (whatever its reference
count) is reported invalid. -/
theorem empty_handles_invalid_witness :
    IsValidSharedPtr (SharedPtr.mk (none : Option Nat) 3) = false :=
  empty_handles_invalid.2.1 Nat ⟨none, 3⟩ rfl

/-- C6: every non-null handle of a pointer category with no secondary probe
(generic raw pointer, shared/unique owning handles, `RHI::Ptr`, `RPI::Ptr`,
`ViewPtr`, `ScenePtr`, `RenderPipelinePtr`, `ShaderResourceGroupPtr`,
`PipelineStatePtr`, `Data::Instance`) is reported valid. -/
theorem nonnull_simple_handles_valid :
    (∀ (T : Type) (x : T), IsValidPtr (some x) = true) ∧
    (∀ (T : Type) (x : T) (n : Nat), IsValidSharedPtr ⟨some x, n⟩ = true) ∧
    (∀ (T : Type) (x : T), IsValidUniquePtr ⟨some x⟩ = true) ∧
    (∀ (T : Type) (x : T), IsValidRHIPtr ⟨some x⟩ = true) ∧
    (∀ (T : Type) (x : T), IsValidRPIPtr ⟨some x⟩ = true) ∧
    (∀ (v : View) (n : Nat), IsValidViewPtr ⟨some v, n⟩ = true) ∧
    (∀ (s : Scene) (n : Nat), IsValidScenePtr ⟨some s, n⟩ = true) ∧
    (∀ (r : RenderPipeline) (n : Nat), IsValidRenderPipelinePtr ⟨some r, n⟩ = true) ∧
    (∀ g : ShaderResourceGroup, IsValidShaderResourceGroupPtr ⟨some g⟩ = true) ∧
    (∀ p : PipelineState, IsValidPipelineStatePtr ⟨some p⟩ = true) ∧
    (∀ (T : Type) (x : T), IsValidInstance ⟨some x⟩ = true) :=
  ⟨fun _ _ => rfl, fun _ _ _ => rfl, fun _ _ => rfl, fun _ _ => rfl,
   fun _ _ => rfl, fun _ _ => rfl, fun _ _ => rfl, fun _ _ => rfl,
   fun _ => rfl, fun _ => rfl, fun _ _ => rfl⟩

/-- C7: in each composite overload (entity active, component active, job not
cancelled, serialization-context ready) the null check on the primary
pointer short-circuits: the instrumented evaluator yields the same verdict
as the plain predicate, performs no secondary accessor call on a null
primary, and never reads the owner state of a component whose owning entity
is null. -/
theorem composite_shortcircuit_null :
    ((∀ e : Option Entity, (IsValidEntityEval e).1 = IsValidEntity e) ∧
      (IsValidEntityEval none).2 = []) ∧
    ((∀ c : Option Component, (IsValidComponentEval c).1 = IsValidComponent c) ∧
      (IsValidComponentEval none).2 = [] ∧
      (∀ c : Component, c.GetEntity = none →
        Probe.ownerGetState ∉ (IsValidComponentEval (some c)).2)) ∧
    ((∀ j : Option Job, (IsValidJobEval j).1 = IsValidJob j) ∧
      (IsValidJobEval none).2 = []) ∧
    ((∀ s : Option SerializeContext,
        (IsValidSerializeContextEval s).1 = IsValidSerializeContext s) ∧
      (IsValidSerializeContextEval none).2 = []) := by
  refine ⟨⟨?_, rfl⟩, ⟨?_, rfl, ?_⟩, ⟨?_, rfl⟩, ⟨?_, rfl⟩⟩
  · intro e
    cases e <;> rfl
  · intro c
    cases c with
    | none => rfl
    | some comp =>
      obtain ⟨oe⟩ := comp
      cases oe <;> rfl
  · intro c h
    obtain ⟨oe⟩ := c
    simp only [Component.GetEntity] at h
    subst h
    decide
  · intro j
    cases j <;> rfl
  · intro s
    cases s <;> rfl

/-- Closed instance of C7: evaluating the component overload on a component
whose owning entity is null never reads the owner state. -/
theorem composite_shortcircuit_null_witness :
    Probe.ownerGetState ∉ (IsValidComponentEval (some ⟨none⟩)).2 :=
  composite_shortcircuit_null.2.1.2.2 ⟨none⟩ rfl

/-- C8: the outcome overload returns true iff the value is in its success
state, and the verdict depends only on the success discriminant, never on
the contained payload. -/
theorem outcome_isvalid_success :
    (∀ (T E : Type) (o : Outcome T E),
        IsValidOutcome o = true ↔ ∃ v : T, o = Outcome.success v) ∧
    (∀ (T E : Type) (o₁ o₂ : Outcome T E), o₁.IsSuccess = o₂.IsSuccess →
        IsValidOutcome o₁ = IsValidOutcome o₂) := by
  constructor
  · intro T E o
    cases o with
    | success v =>
      exact ⟨fun _ => ⟨v, rfl⟩, fun _ => rfl⟩
    | failure e =>
      simp only [IsValidOutcome, Outcome.IsSuccess]
      constructor
      · intro h
        exact absurd h (by simp)
      · rintro ⟨v, hv⟩
        cases hv
  · intro T E o₁ o₂ h
    cases o₁ <;> cases o₂ <;> simp_all [IsValidOutcome, Outcome.IsSuccess]

/-- Closed instance of C8: two success outcomes with different payloads get
the same verdict. -/
theorem outcome_isvalid_success_witness :
    IsValidOutcome (Outcome.success 0 : Outcome Nat Bool) =
      IsValidOutcome (Outcome.success 7 : Outcome Nat Bool) :=
  outcome_isvalid_success.2 Nat Bool (Outcome.success 0) (Outcome.success 7) rfl

/-- C9: for the smart-handle overloads with no secondary probe (shared,
unique, data-instance), the verdict is the generic raw-pointer predicate
applied to the stored pointer: true exactly when the stored pointer is
non-null, independent of the reference count. -/
theorem smart_handle_hom :
    (∀ (T : Type) (s : SharedPtr T), IsValidSharedPtr s = IsValidPtr s.get) ∧
    (∀ (T : Type) (u : UniquePtr T), IsValidUniquePtr u = IsValidPtr u.get) ∧
    (∀ (T : Type) (i : Instance T), IsValidInstance i = IsValidPtr i.get) ∧
    (∀ (T : Type) (s : SharedPtr T), IsValidSharedPtr s = true ↔ s.get ≠ none) ∧
    (∀ (T : Type) (p : Option T) (n₁ n₂ : Nat),
        IsValidSharedPtr ⟨p, n₁⟩ = IsValidSharedPtr ⟨p, n₂⟩) := by
  refine ⟨fun _ _ => rfl, fun _ _ => rfl, fun _ _ => rfl, ?_, fun _ _ _ _ => rfl⟩
  intro T s
  obtain ⟨g, n⟩ := s
  cases g <;> simp [IsValidSharedPtr]

/-- C10: the double-read form of the component overload taken from the
source (which reads `GetEntity` twice) equals, on every component pointer,
the single-read form that binds the owning entity once; and the instrumented
trace on a component with a non-null owner indeed records two `GetEntity`
reads followed by one owner-state read. Purity of the accessor is inherent
in the embedding. -/
theorem component_double_read_eq_single_read :
    (∀ c : Option Component, IsValidComponent c = IsValidComponentSingleRead c) ∧
    (∀ (c : Component) (owner : Entity), c.GetEntity = some owner →
        (IsValidComponentEval (some c)).2 =
          [Probe.componentGetEntity, Probe.componentGetEntity,
            Probe.ownerGetState]) := by
  constructor
  · intro c
    cases c with
    | none => rfl
    | some comp =>
      obtain ⟨oe⟩ := comp
      cases oe <;> rfl
  · intro c owner h
    obtain ⟨oe⟩ := c
    simp only [Component.GetEntity] at h
    subst h
    rfl

/-- Closed instance of C10: the trace on a component owned by an active
entity records the two `GetEntity` reads of the source expression. -/
theorem component_double_read_eq_single_read_witness :
    (IsValidComponentEval (some ⟨some ⟨EntityState.Active⟩⟩)).2 =
      [Probe.componentGetEntity, Probe.componentGetEntity, Probe.ownerGetState] :=
  component_double_read_eq_single_read.2 ⟨some ⟨EntityState.Active⟩⟩
    ⟨EntityState.Active⟩ rfl

end AZ
